import Mathlib

/-!
Verification of the turn-orchestration pipeline of the Family Voice Bridge
backend (Next.js + PostgreSQL): shallow embedding of the JSON-extraction
helpers, the translation client's budget/timeout formulas, the reply-turn and
mom-turn route handlers, the daily-summary generation endpoint and its
transactional write, and the vocabulary endpoint's analysis post-processing.

Conventions:
- timestamps are minutes since the Unix epoch (`Int`);
- calendar dates are epoch day numbers (`Int`), produced by `daysFromCivil`;
- external services (ASR, LLM, translation) are oracles passed as arguments:
  a handler embedding receives the responses the services would return;
- database tables are lists of row structures; issued writes are modelled
  explicitly so that fire-and-forget failure behaviour can be analysed.
-/

/-! ### JSON extraction (src/app/api/vocabulary/daily/route.ts, extractJSON) -/

/-- State carried by the character scan of `extractJSON`:
the running brace depth, whether the scanner is inside a string literal,
and whether the next character is escaped. -/
structure ScanState where
  braceCount : Int
  inString : Bool
  escapeNext : Bool
deriving DecidableEq, Repr

/-- One step of a string/escape-aware brace scan, following the spec's
description of the parse strategy (brace-matching that ignores braces inside
string literals and honours backslash escapes). -/
def scanStep (st : ScanState) (c : Char) : ScanState :=
  if st.escapeNext then { st with escapeNext := false }
  else if c = '\\' then { st with escapeNext := true }
  else if c = '"' then { st with inString := !st.inString }
  else if !st.inString && c = '{' then { st with braceCount := st.braceCount + 1 }
  else if !st.inString && c = '}' then { st with braceCount := st.braceCount - 1 }
  else st

/-- The character loop of `extractJSON` (vocabulary route, lines 297-330):
walks the text from the first brace keeping `braceCount`/`inString`/
`escapeNext`, and returns the consumed characters when the depth returns to
zero.  `braceCount` is an `Int`, as in the JavaScript source. -/
def extractJSONLoop (cs : List Char) (braceCount : Int) (inString escapeNext : Bool) :
    Option (List Char) :=
  match cs with
  | [] => none
  | c :: rest =>
    if escapeNext then
      (extractJSONLoop rest braceCount inString false).map (c :: ·)
    else if c = '\\' then
      (extractJSONLoop rest braceCount inString true).map (c :: ·)
    else if c = '"' then
      (extractJSONLoop rest braceCount (!inString) escapeNext).map (c :: ·)
    else if !inString && c = '{' then
      (extractJSONLoop rest (braceCount + 1) inString escapeNext).map (c :: ·)
    else if !inString && c = '}' then
      if braceCount - 1 = 0 then some [c]
      else (extractJSONLoop rest (braceCount - 1) inString escapeNext).map (c :: ·)
    else
      (extractJSONLoop rest braceCount inString escapeNext).map (c :: ·)

/-- `extractJSON` of the vocabulary route: find the first `{` and scan
forward with string/escape awareness until the braces balance; `none` when
there is no `{` or the braces never balance. -/
def extractJSON (text : String) : Option String :=
  match text.data.dropWhile (· ≠ '{') with
  | [] => none
  | cs => (extractJSONLoop cs 0 false false).map (fun l => String.mk l)

/-- Reference formulation of the spec's parse strategy, written from the
spec's words: the extracted object is the shortest non-empty prefix of the
text starting at the first `{` on which the string/escape-aware brace scan
returns to depth zero. -/
def firstBalancedJSON (text : String) : Option String :=
  let cs := text.data.dropWhile (· ≠ '{')
  ((List.range (cs.length + 1)).find? (fun k =>
      decide (k ≠ 0) &&
      decide (((cs.take k).foldl scanStep ⟨0, false, false⟩).braceCount = 0))).map
    (fun k => String.mk (cs.take k))

/-- The Tagging Service's extraction (src/lib/ai-client.ts, `tagConversation`
lines 444-450): the JavaScript regular expression `/\x7b[\s\S]*\x7d/` matched
against the content, i.e. the (greedy) span from the first `{` to the last
`}`; no match when no such span exists. -/
def tagExtractJSON (text : String) : Option String :=
  let fromBrace := text.data.dropWhile (· ≠ '{')
  match (fromBrace.reverse.dropWhile (· ≠ '}')).reverse with
  | [] => none
  | l => some (String.mk l)

/-! ### Translation client budget and timeout (src/lib/ai-client.ts, translateText) -/

/-- `estimatedInputTokens` of `translateText` (line 267): Chinese characters
count one token each, otherwise `Math.ceil(textLength / 4)`. -/
def estimatedInputTokens (sourceIsChinese : Bool) (textLength : Nat) : Nat :=
  if sourceIsChinese then textLength else (textLength + 3) / 4

/-- `maxTokens` of `translateText` (line 268):
`Math.min(Math.max(estimatedInputTokens * 3, 1024), 2048)`. -/
def translateMaxTokens (sourceIsChinese : Bool) (textLength : Nat) : Nat :=
  min (max (estimatedInputTokens sourceIsChinese textLength * 3) 1024) 2048

/-- `timeoutMs` of `translateText` (line 286):
`Math.min(30000 + Math.floor(textLength / 100) * 1000, 60000)`. -/
def translateTimeoutMs (textLength : Nat) : Nat :=
  min (30000 + textLength / 100 * 1000) 60000

/-! ### JavaScript string primitives -/

/-- JavaScript `String.prototype.trim`: strip leading and trailing
whitespace. -/
def jsTrim (s : String) : String :=
  String.mk (((s.data.dropWhile Char.isWhitespace).reverse.dropWhile Char.isWhitespace).reverse)

/-- JavaScript `String.prototype.toLowerCase` (ASCII case folding). -/
def jsToLower (s : String) : String := String.mk (s.data.map Char.toLower)

/-! ### Data model rows and external-service results -/

/-- Row of `conversation_sessions` as read by the turn handlers. -/
structure SessionRow where
  id : String
  householdId : String
  initiatedByUserId : String
deriving DecidableEq, Repr

/-- Response of the transcription provider (`transcribeAudio`): request id and
optional transcript text (the `text` field may be absent). -/
structure TranscriptionResult where
  requestId : String
  text : Option String
deriving DecidableEq, Repr

/-- Response of the translation client (`translateText`). -/
structure TranslationResult where
  translatedText : String
  requestId : String
deriving DecidableEq, Repr

/-- Row of `conversation_turns` as inserted by the turn handlers.
`endedAt` is minutes since the Unix epoch (the handlers insert `NOW()`). -/
structure TurnRow where
  sessionId : String
  householdId : String
  speakerUserId : Option String
  speakerRole : String
  turnIndex : Nat
  endedAt : Int
  sourceLang : String
  targetLang : String
  sourceText : String
  translatedText : String
  asrRequestId : String
  translationRequestId : String
deriving DecidableEq, Repr

/-! ### Turn handlers (src/app/api/sessions/[sessionId]/reply-turn/route.ts) -/

/-- The responses the two turn handlers can produce on their synchronous path. -/
inductive TurnApiResponse where
  | sessionNotFound
  | audioMissing
  | emptySpeech
  | ok (sourceText translatedText : String)
deriving DecidableEq, Repr

/-- HTTP status of each turn-handler response, as in the source. -/
def TurnApiResponse.status : TurnApiResponse → Nat
  | .sessionNotFound => 404
  | .audioMissing => 400
  | .emptySpeech => 400
  | .ok _ _ => 200

/-- User-facing message of each turn-handler error response. -/
def TurnApiResponse.errorMessage : TurnApiResponse → String
  | .sessionNotFound => "Session not found"
  | .audioMissing => "Audio file is required"
  | .emptySpeech => "No speech detected in audio. Please try speaking again."
  | .ok _ _ => ""

/-- What a turn handler returns together with the database writes it issues.
`turnInserts` are the INSERTs into `conversation_turns` it fires;
`sessionEndUpdates` are the session ids whose `ended_at` it sets to `NOW()`. -/
structure TurnApiOutcome where
  response : TurnApiResponse
  turnInserts : List TurnRow
  sessionEndUpdates : List String
deriving DecidableEq, Repr

/-- The reply-turn (partner, turn index 1) POST handler: session lookup,
audio check, transcription, empty-speech check (`transcription.text?.trim()`
falsy), translation, then fire-and-forget insert of the turn row and update
of the session's `ended_at`.  External results are oracle arguments; `now`
is `NOW()` at write time. -/
def replyTurnPost (session : Option SessionRow) (partnerUserId : Option String)
    (audioPresent : Bool) (transcription : TranscriptionResult)
    (translation : TranslationResult) (now : Int) : TurnApiOutcome :=
  match session with
  | none => ⟨.sessionNotFound, [], []⟩
  | some s =>
    if !audioPresent then ⟨.audioMissing, [], []⟩
    else
      let sourceText := jsTrim (transcription.text.getD "")
      if sourceText = "" then ⟨.emptySpeech, [], []⟩
      else
        ⟨.ok sourceText translation.translatedText,
         [⟨s.id, s.householdId, partnerUserId, "partner", 1, now, "en-US", "zh-CN",
           sourceText, translation.translatedText, transcription.requestId,
           translation.requestId⟩],
         [s.id]⟩

/-- The mom-turn (initiator, turn index 0) POST handler: same checks, inserts
the turn row (fire-and-forget) and never touches the session's `ended_at`. -/
def momTurnPost (session : Option SessionRow) (audioPresent : Bool)
    (transcription : TranscriptionResult) (translation : TranslationResult)
    (now : Int) : TurnApiOutcome :=
  match session with
  | none => ⟨.sessionNotFound, [], []⟩
  | some s =>
    if !audioPresent then ⟨.audioMissing, [], []⟩
    else
      let sourceText := jsTrim (transcription.text.getD "")
      if sourceText = "" then ⟨.emptySpeech, [], []⟩
      else
        ⟨.ok sourceText translation.translatedText,
         [⟨s.id, s.householdId, some s.initiatedByUserId, "mom", 0, now, "zh-CN", "en-US",
           sourceText, translation.translatedText, transcription.requestId,
           translation.requestId⟩],
         []⟩

/-! ### Persistence of the two turns and `ended_at` (claim about Session lifecycle)

The mom handler issues one fire-and-forget turn-0 insert; the reply handler
issues the turn-1 insert and the `UPDATE conversation_sessions SET ended_at =
NOW()` concurrently (one `Promise.all`, lines 98-135), with any failure
swallowed by a `.catch`.  Each issued write therefore succeeds or fails
independently, which the event model below makes explicit. -/

/-- Persisted state of one session: which turn rows exist and the session's
`ended_at` column.  `startedAt` is the session's `started_at`. -/
structure SessionPersistState where
  startedAt : Int
  turn0Persisted : Bool
  turn1Persisted : Bool
  endedAt : Option Int
deriving DecidableEq, Repr

/-- One batch of writes issued by a turn handler, with per-write success
flags (failures are logged and swallowed in the source). -/
inductive PersistEvent where
  | momWrite (insertOk : Bool)
  | replyWrite (insertOk updateOk : Bool) (now : Int)
deriving DecidableEq, Repr

/-- Apply one handler's issued writes to the persisted state.  The reply
handler's `ended_at` update is applied whenever `updateOk`, regardless of
whether the turn-1 insert succeeded — exactly as the source issues it. -/
def stepPersist (st : SessionPersistState) (e : PersistEvent) : SessionPersistState :=
  match e with
  | .momWrite insertOk =>
      if insertOk then { st with turn0Persisted := true } else st
  | .replyWrite insertOk updateOk now =>
      let st1 := if insertOk then { st with turn1Persisted := true } else st
      if updateOk then { st1 with endedAt := some now } else st1

/-- Run a session from creation (`started_at = startedAt`, no turns, null
`ended_at`) through a list of issued write batches. -/
def runPersist (startedAt : Int) (es : List PersistEvent) : SessionPersistState :=
  es.foldl stepPersist ⟨startedAt, false, false, none⟩

/-! ### Calendar dates and the household-timezone conversion -/

/-- Days since 1970-01-01 of the civil date `y-m-d` (proleptic Gregorian). -/
def daysFromCivil (y m d : Int) : Int :=
  let yAdj := if m ≤ 2 then y - 1 else y
  let era := yAdj.fdiv 400
  let yoe := yAdj - era * 400
  let doy := (153 * (if 2 < m then m - 3 else m + 9) + 2) / 5 + d - 1
  let doe := yoe * 365 + yoe / 4 - yoe / 100 + doy
  era * 146097 + doe - 719468

/-- Minutes since the Unix epoch of the UTC instant `y-m-d hh:mm`. -/
def minutesOfUTC (y m d hh mm : Int) : Int :=
  daysFromCivil y m d * 1440 + hh * 60 + mm

/-- Model of PostgreSQL's `DATE(ended_at AT TIME ZONE tz)` for a zone that is
at a fixed UTC offset around the instants considered: the local calendar day
(as days since epoch) of a UTC timestamp in minutes. -/
def dateAtTimeZone (offsetMinutes utcMinutes : Int) : Int :=
  (utcMinutes + offsetMinutes).fdiv 1440

/-- UTC offset of `America/New_York` in December (EST, UTC-5), in minutes. -/
def newYorkWinterOffsetMinutes : Int := -300

/-- Row of `households` as read by the endpoints; the IANA timezone string is
carried as the zone's UTC offset in minutes (the conversion itself is done by
PostgreSQL, modelled by `dateAtTimeZone`). -/
structure HouseholdRow where
  id : String
  timezoneOffsetMinutes : Int
deriving DecidableEq, Repr

/-- The turns query of the summary-generation endpoint (lines 36-49):
all turns of the household whose `ended_at`, converted to the household
timezone, falls on the target date. -/
def summaryTurnsForDate (allTurns : List TurnRow) (householdId : String)
    (tzOffsetMinutes : Int) (targetDate : Int) : List TurnRow :=
  allTurns.filter (fun t =>
    t.householdId = householdId &&
      dateAtTimeZone tzOffsetMinutes t.endedAt = targetDate)

/-! ### Daily summary generation (src/app/api/summaries/generate/route.ts and
src/lib/ai-client.ts generateDailySummary) -/

/-- One phrase object of the LLM's summary JSON. -/
structure SummaryPhrase where
  phrase_en : String
  phrase_zh : String
  explanation_zh : Option String
  example_en : Option String
  example_zh : Option String
deriving DecidableEq, Repr

/-- The summary object parsed from the LLM's JSON.  `phrases` is `none` when
the parsed object has no phrases array (JavaScript `undefined`/`null`). -/
structure ParsedSummary where
  topic_summary_zh : String
  topic_summary_en : String
  whats_new_zh : Option String
  whats_new_en : Option String
  phrases : Option (List SummaryPhrase)
deriving DecidableEq, Repr

/-- The structure validation at the end of `generateDailySummary`
(ai-client.ts lines 654-660): missing topic fields or missing phrases array
raise the invalid-structure error; a present phrases array whose length is
not exactly 5 raises the five-phrases error. -/
def validateSummary (s : ParsedSummary) : Except String ParsedSummary :=
  if s.topic_summary_zh = "" || s.topic_summary_en = "" || s.phrases.isNone then
    .error "Invalid summary structure returned"
  else if (s.phrases.getD []).length ≠ 5 then
    .error "Summary must contain exactly 5 phrases"
  else .ok s

/-- `generateDailySummary` seen from the endpoint: the provider/parse layers
are an oracle (`none` = request failed or no JSON could be parsed), then the
structure validation runs. -/
def generateDailySummaryResult (raw : Option ParsedSummary) : Except String ParsedSummary :=
  match raw with
  | none => .error "Failed to parse summary response"
  | some s => validateSummary s

/-- Row of `daily_summaries`. -/
structure DailySummaryRow where
  householdId : String
  summaryDate : Int
  topicSummaryZh : String
  topicSummaryEn : String
  whatsNewZh : Option String
  whatsNewEn : Option String
  generatedAt : Int
deriving DecidableEq, Repr

/-- Row of `daily_key_phrases` (the `summary_id` foreign key is determined by
`(householdId, summaryDate)` and not tracked separately). -/
structure KeyPhraseRow where
  householdId : String
  summaryDate : Int
  phraseRank : Nat
  phraseEn : String
  phraseZh : String
  explanationZh : Option String
  exampleEn : Option String
  exampleZh : Option String
  isNewToday : Bool
deriving DecidableEq, Repr

/-- The two tables the summary endpoint writes. -/
structure SummaryDb where
  summaries : List DailySummaryRow
  phrases : List KeyPhraseRow
deriving DecidableEq, Repr

/-- JavaScript `value || null` applied to an optional string column: an empty
string is stored as NULL. -/
def jsOrNull (o : Option String) : Option String :=
  match o with
  | some x => if x = "" then none else some x
  | none => none

/-- `INSERT ... ON CONFLICT (household_id, summary_date) DO UPDATE` on
`daily_summaries`: replace the matching row if one exists, else append. -/
def upsertDailySummary (row : DailySummaryRow) (l : List DailySummaryRow) :
    List DailySummaryRow :=
  if l.any (fun r => r.householdId = row.householdId && r.summaryDate = row.summaryDate) then
    l.map (fun r =>
      if r.householdId = row.householdId && r.summaryDate = row.summaryDate then row else r)
  else l ++ [row]

/-- `DELETE FROM daily_key_phrases WHERE household_id = $1 AND summary_date = $2`. -/
def deleteKeyPhrases (h : String) (d : Int) (l : List KeyPhraseRow) : List KeyPhraseRow :=
  l.filter (fun r => !(r.householdId = h && r.summaryDate = d))

/-- `INSERT ... ON CONFLICT (household_id, summary_date, phrase_en) DO UPDATE`
on `daily_key_phrases`. -/
def upsertKeyPhrase (row : KeyPhraseRow) (l : List KeyPhraseRow) : List KeyPhraseRow :=
  if l.any (fun r => r.householdId = row.householdId && r.summaryDate = row.summaryDate &&
      r.phraseEn = row.phraseEn) then
    l.map (fun r =>
      if r.householdId = row.householdId && r.summaryDate = row.summaryDate &&
          r.phraseEn = row.phraseEn then row else r)
  else l ++ [row]

/-- The `daily_summaries` row the endpoint writes for a generation. -/
def summaryRowOfResult (h : String) (d : Int) (s : ParsedSummary) (now : Int) :
    DailySummaryRow :=
  ⟨h, d, s.topic_summary_zh, s.topic_summary_en,
    jsOrNull s.whats_new_zh, jsOrNull s.whats_new_en, now⟩

/-- The `daily_key_phrases` row inserted for the phrase of rank `rank`. -/
def phraseRowOfInput (h : String) (d : Int) (rank : Nat) (p : SummaryPhrase) : KeyPhraseRow :=
  ⟨h, d, rank, p.phrase_en, p.phrase_zh, p.explanation_zh, p.example_en, p.example_zh, false⟩

/-- The statements of the endpoint's transaction, in order (route lines
71-148): upsert the summary row, delete the date's phrases, then upsert the
new phrases with ranks 1, 2, ... -/
def summaryTxStatements (h : String) (d : Int) (s : ParsedSummary) (now : Int) :
    List (SummaryDb → SummaryDb) :=
  (fun db => { db with summaries := upsertDailySummary (summaryRowOfResult h d s now) db.summaries })
  :: (fun db => { db with phrases := deleteKeyPhrases h d db.phrases })
  :: ((s.phrases.getD []).enum.map (fun ip =>
        fun db => { db with phrases := upsertKeyPhrase (phraseRowOfInput h d (ip.1 + 1) ip.2) db.phrases }))

/-- The `transaction` helper of src/lib/db.ts (BEGIN / COMMIT / ROLLBACK):
if some statement fails (`failAt = some k` with `k` in range), every effect
is rolled back and the state is unchanged; otherwise all statements apply in
order. -/
def runTransaction {σ : Type} (stmts : List (σ → σ)) (failAt : Option Nat) (db : σ) : σ :=
  match failAt with
  | some k => if k < stmts.length then db else stmts.foldl (fun s f => f s) db
  | none => stmts.foldl (fun s f => f s) db

/-- Responses of the summary-generation endpoint. -/
inductive GenerateResponse where
  | householdIdRequired
  | householdNotFound
  | noConversationsForDate
  | generationFailed (message : String)
  | ok (summary : ParsedSummary) (summaryDate : Int)
deriving DecidableEq, Repr

/-- Outcome of the summary-generation endpoint: the response and the state of
the summary tables after the request. -/
structure GenerateOutcome where
  response : GenerateResponse
  db : SummaryDb
deriving DecidableEq, Repr

/-- The summary-generation POST handler: household-id check, household
lookup, the timezone-converted turns query, the empty-date check (`No
conversations found for the specified date`, route lines 51-56), the LLM
call with structure validation, and the transactional summary+phrases write. -/
def generatePost (householdId : Option String) (summaryDate : Option Int) (today : Int)
    (lookupHousehold : Option HouseholdRow) (allTurns : List TurnRow)
    (llmRaw : Option ParsedSummary) (txFailAt : Option Nat) (now : Int)
    (db : SummaryDb) : GenerateOutcome :=
  match householdId with
  | none => ⟨.householdIdRequired, db⟩
  | some h =>
    let targetDate := summaryDate.getD today
    match lookupHousehold with
    | none => ⟨.householdNotFound, db⟩
    | some hh =>
      let turns := summaryTurnsForDate allTurns h hh.timezoneOffsetMinutes targetDate
      if turns.length = 0 then ⟨.noConversationsForDate, db⟩
      else
        match generateDailySummaryResult llmRaw with
        | .error msg => ⟨.generationFailed msg, db⟩
        | .ok s =>
          let stmts := summaryTxStatements h targetDate s now
          let db' := runTransaction stmts txFailAt db
          match txFailAt with
          | some k =>
            if k < stmts.length then ⟨.generationFailed "database transaction rolled back", db'⟩
            else ⟨.ok s targetDate, db'⟩
          | none => ⟨.ok s targetDate, db'⟩

/-! ### Vocabulary extraction (src/app/api/vocabulary/daily/route.ts) -/

/-- One noun/verb item of the parsed analysis JSON (`word` may be absent). -/
structure VocabWordItem where
  word : Option String
  count : Nat
deriving DecidableEq, Repr

/-- One phrase item of the parsed analysis JSON. -/
structure VocabPhraseItem where
  phrase : Option String
  count : Nat
deriving DecidableEq, Repr

/-- The analysis object parsed from the model's JSON (after the route's
defaulting of missing keys to empty arrays). -/
structure VocabAnalysis where
  nouns : List VocabWordItem
  verbs : List VocabWordItem
  phrases : List VocabPhraseItem
deriving DecidableEq, Repr

/-- The A1-level exclusion set of the vocabulary route (lines 528-634),
transcribed entry for entry. -/
def a1ExclusionList : List String := [
  "be", "been", "being", "am", "is", "are", "was", "were",
  "have", "has", "had", "having",
  "do", "does", "did", "doing", "done",
  "will", "would", "shall", "should", "may", "might", "must", "can", "could",
  "go", "goes", "went", "gone", "going",
  "come", "comes", "came", "coming",
  "get", "gets", "got", "getting",
  "make", "makes", "made", "making",
  "take", "takes", "took", "taken", "taking",
  "give", "gives", "gave", "given", "giving",
  "say", "says", "said", "saying",
  "see", "sees", "saw", "seen", "seeing",
  "know", "knows", "knew", "known", "knowing",
  "think", "thinks", "thought", "thinking",
  "want", "wants", "wanted", "wanting",
  "like", "likes", "liked", "liking",
  "need", "needs", "needed", "needing",
  "look", "looks", "looked", "looking",
  "use", "uses", "used", "using",
  "find", "finds", "found", "finding",
  "tell", "tells", "told", "telling",
  "ask", "asks", "asked", "asking",
  "work", "works", "worked", "working",
  "try", "tries", "tried", "trying",
  "call", "calls", "called", "calling",
  "help", "helps", "helped", "helping",
  "show", "shows", "showed", "shown", "showing",
  "play", "plays", "played", "playing",
  "move", "moves", "moved", "moving",
  "live", "lives", "lived", "living",
  "believe", "believes", "believed", "believing",
  "bring", "brings", "brought", "bringing",
  "happen", "happens", "happened", "happening",
  "write", "writes", "wrote", "written", "writing",
  "sit", "sits", "sat", "sitting",
  "stand", "stands", "stood", "standing",
  "lose", "loses", "lost", "losing",
  "pay", "pays", "paid", "paying",
  "meet", "meets", "met", "meeting",
  "include", "includes", "included", "including",
  "continue", "continues", "continued", "continuing",
  "set", "sets", "setting",
  "learn", "learns", "learned", "learnt", "learning",
  "change", "changes", "changed", "changing",
  "lead", "leads", "led", "leading",
  "understand", "understands", "understood", "understanding",
  "watch", "watches", "watched", "watching",
  "follow", "follows", "followed", "following",
  "stop", "stops", "stopped", "stopping",
  "create", "creates", "created", "creating",
  "speak", "speaks", "spoke", "spoken", "speaking",
  "read", "reads", "reading",
  "allow", "allows", "allowed", "allowing",
  "add", "adds", "added", "adding",
  "spend", "spends", "spent", "spending",
  "grow", "grows", "grew", "grown", "growing",
  "open", "opens", "opened", "opening",
  "walk", "walks", "walked", "walking",
  "eat", "eats", "ate", "eaten", "eating",
  "time", "year", "years", "day", "days", "way", "ways", "thing", "things",
  "man", "men", "woman", "women", "people", "person", "persons",
  "child", "children", "kid", "kids", "baby", "babies",
  "place", "places", "work", "life", "lives", "world", "worlds",
  "house", "houses", "home", "homes", "room", "rooms",
  "water", "food", "money", "morning", "mornings", "afternoon", "afternoons",
  "evening", "evenings", "night", "nights", "week", "weeks", "month", "months",
  "year", "years", "today", "tomorrow", "yesterday",
  "name", "names", "friend", "friends", "family", "families",
  "school", "schools", "teacher", "teachers", "student", "students",
  "book", "books", "pen", "pens", "paper", "papers",
  "car", "cars", "bus", "buses", "train", "trains",
  "phone", "phones", "computer", "computers",
  "table", "tables", "chair", "chairs", "door", "doors", "window", "windows",
  "bed", "beds", "bathroom", "bathrooms", "kitchen", "kitchens",
  "milk", "bread", "rice", "egg", "eggs", "apple", "apples",
  "dog", "dogs", "cat", "cats", "bird", "birds",
  "sun", "moon", "sky", "tree", "trees", "flower", "flowers",
  "hand", "hands", "head", "heads", "eye", "eyes", "ear", "ears",
  "nose", "nose", "mouth", "mouths", "foot", "feet", "leg", "legs",
  "arm", "arms", "body", "bodies",
  "good", "bad", "big", "small", "new", "old", "long", "short",
  "hot", "cold", "warm", "cool", "happy", "sad", "nice", "fine",
  "right", "wrong", "easy", "hard", "difficult", "simple",
  "fast", "slow", "high", "low", "large", "little", "young", "old",
  "beautiful", "ugly", "clean", "dirty", "full", "empty",
  "heavy", "light", "dark", "bright", "open", "closed",
  "free", "busy", "ready", "sure", "sorry", "glad",
  "i", "you", "he", "she", "it", "we", "they",
  "me", "him", "her", "us", "them",
  "my", "your", "his", "her", "its", "our", "their",
  "this", "that", "these", "those",
  "what", "who", "where", "when", "why", "how",
  "all", "some", "many", "much", "more", "most", "few", "little",
  "one", "two", "three", "four", "five", "six", "seven", "eight", "nine", "ten",
  "first", "second", "third", "last", "next", "other", "another",
  "same", "different", "each", "every", "both", "either", "neither"]

/-- The A1 filter of the route (lines 644-661): keep an item when its word,
lowercased and trimmed, is non-empty and not in the exclusion set. -/
def keepWordItem (v : VocabWordItem) : Bool :=
  match v.word with
  | none => false
  | some w => jsTrim (jsToLower w) ≠ "" && !(a1ExclusionList.contains (jsTrim (jsToLower w)))

/-- JavaScript truthiness of `item.word && item.word.trim()`. -/
def wordNonempty (o : Option String) : Bool :=
  match o with
  | none => false
  | some w => jsTrim w ≠ ""

/-- `translateSequentially`'s per-item translation: empty text yields an
empty translation; otherwise `translateWithRetry` via the oracle `tr`
(`none` = all attempts failed), falling back to the original text. -/
def translateItemText (tr : String → Option String) (text : Option String) : String :=
  match text with
  | none => ""
  | some t => if jsTrim t = "" then "" else (tr t).getD t

/-- A returned vocabulary word with its translation and usage count. -/
structure TranslatedWord where
  word : String
  translation : String
  count : Nat
deriving DecidableEq, Repr

/-- A returned vocabulary phrase with its translation and usage count. -/
structure TranslatedPhrase where
  phrase : String
  translation : String
  count : Nat
deriving DecidableEq, Repr

/-- The result of `analyzeVocabulary`. -/
structure VocabResult where
  nouns : List TranslatedWord
  verbs : List TranslatedWord
  phrases : List TranslatedPhrase
deriving DecidableEq, Repr

/-- The post-parse portion of `analyzeVocabulary` (route lines 643-787):
A1 filtering of nouns and verbs, taking the top 5/5/3, sequential
translation with retry/fallback (oracle `tr`), and the final non-empty
filter.  The HTTP and JSON-extraction layers in front are covered by the
oracle argument `analysis`. -/
def analyzeVocabularyPost (analysis : VocabAnalysis) (tr : String → Option String) :
    VocabResult :=
  let verbsF := analysis.verbs.filter keepWordItem
  let nounsF := analysis.nouns.filter keepWordItem
  let nounsToTranslate := (nounsF.take 5).filter (fun n => wordNonempty n.word)
  let verbsToTranslate := (verbsF.take 5).filter (fun v => wordNonempty v.word)
  let phrasesToTranslate := (analysis.phrases.take 3).filter (fun p => wordNonempty p.phrase)
  let tN := nounsToTranslate.map (fun n => (n, translateItemText tr n.word))
  let tV := verbsToTranslate.map (fun v => (v, translateItemText tr v.word))
  let tP := phrasesToTranslate.map (fun p => (p, translateItemText tr p.phrase))
  { nouns := (tN.filter (fun x => wordNonempty x.1.word && jsTrim x.2 ≠ "")).map
      (fun x => ⟨x.1.word.getD "", x.2, x.1.count⟩)
  , verbs := (tV.filter (fun x => wordNonempty x.1.word && jsTrim x.2 ≠ "")).map
      (fun x => ⟨x.1.word.getD "", x.2, x.1.count⟩)
  , phrases := (tP.filter (fun x => wordNonempty x.1.phrase && jsTrim x.2 ≠ "")).map
      (fun x => ⟨x.1.phrase.getD "", x.2, x.1.count⟩) }

/-- The `^\d\d\d\d-\d\d-\d\d$` date-format check of the vocabulary GET. -/
def validDateFormat (s : String) : Bool :=
  match s.data with
  | [a, b, c, d, e, f, g, h, i, j] =>
    a.isDigit && b.isDigit && c.isDigit && d.isDigit && e = '-' &&
      f.isDigit && g.isDigit && h = '-' && i.isDigit && j.isDigit
  | _ => false

/-- The turns query of the vocabulary GET (lines 833-857): for the target
local date, the partner-directed translated English of Chinese turns plus
the source English of English turns, skipping empty text. -/
def vocabTurnTexts (allTurns : List TurnRow) (householdId : String)
    (tzOffsetMinutes : Int) (targetDate : Int) : List String :=
  ((allTurns.filter (fun t =>
      t.householdId = householdId &&
        dateAtTimeZone tzOffsetMinutes t.endedAt = targetDate &&
        t.sourceLang = "zh-CN" && t.targetLang = "en-US" &&
        t.translatedText ≠ "")).map (fun t => t.translatedText))
  ++ ((allTurns.filter (fun t =>
      t.householdId = householdId &&
        dateAtTimeZone tzOffsetMinutes t.endedAt = targetDate &&
        t.sourceLang = "en-US" && t.targetLang = "zh-CN" &&
        t.sourceText ≠ "")).map (fun t => t.sourceText))

/-- Responses of the vocabulary GET endpoint. -/
inductive VocabApiResponse where
  | householdNotFound
  | invalidDateFormat
  | ok (date : String) (turnCount : Nat) (nouns verbs : List TranslatedWord)
      (phrases : List TranslatedPhrase) (timezoneOffsetMinutes : Int)
deriving DecidableEq, Repr

/-- Outcome of the vocabulary GET: the response, and whether
`analyzeVocabulary` (and hence any LLM call) was reached. -/
structure VocabApiOutcome where
  response : VocabApiResponse
  analyzeCalled : Bool
deriving DecidableEq, Repr

/-- The vocabulary GET handler (lines 789-921): household lookup, date-format
check, the timezone-converted turns query, the empty-date early return with
`turnCount 0` and empty lists, the all-blank early return, and otherwise the
analysis.  `targetDate` is `dateStr` as an epoch day number. -/
def vocabularyGet (lookupHousehold : Option HouseholdRow) (dateStr : String)
    (targetDate : Int) (allTurns : List TurnRow) (analysis : VocabAnalysis)
    (tr : String → Option String) : VocabApiOutcome :=
  match lookupHousehold with
  | none => ⟨.householdNotFound, false⟩
  | some hh =>
    if !(validDateFormat dateStr) then ⟨.invalidDateFormat, false⟩
    else
      let turns := vocabTurnTexts allTurns hh.id hh.timezoneOffsetMinutes targetDate
      if turns.length = 0 then
        ⟨.ok dateStr 0 [] [] [] hh.timezoneOffsetMinutes, false⟩
      else
        let texts := (turns.map (fun t => jsTrim t)).filter (fun t => t ≠ "")
        if texts.length = 0 then
          ⟨.ok dateStr turns.length [] [] [] hh.timezoneOffsetMinutes, false⟩
        else
          let a := analyzeVocabularyPost analysis tr
          ⟨.ok dateStr turns.length a.nouns a.verbs a.phrases hh.timezoneOffsetMinutes, true⟩

/-- Position (in characters, counted from the first `{`) at which the
string/escape-aware scan first returns to brace depth zero; the reference
measure used to relate `extractJSONLoop` to `firstBalancedJSON`. -/
def minBalanced (cs : List Char) (st : ScanState) : Option Nat :=
  match cs with
  | [] => none
  | c :: rest =>
    let st' := scanStep st c
    if st'.braceCount = 0 then some 1 else (minBalanced rest st').map (· + 1)

/-- A model output that wraps its JSON answer in prose whose trailing text
itself contains braces. -/
def tagProseText : String :=
  "\x7b\"situation_tag\": \"kitchen\"\x7d Note: \x7bbraces\x7d used"

/-- A model output whose JSON object contains a closing brace inside string
content. -/
def braceInStringText : String := "prose \x7b\"a\": \"b\x7dc\"\x7d tail"

/-- A concrete five-phrase generation used to exercise the summary write. -/
def examplePhrases : List SummaryPhrase :=
  [⟨"p1", "一", none, none, none⟩, ⟨"p2", "二", none, none, none⟩,
   ⟨"p3", "三", none, none, none⟩, ⟨"p4", "四", none, none, none⟩,
   ⟨"p5", "五", none, none, none⟩]

/-- A concrete parsed summary carrying `examplePhrases`. -/
def exampleSummary : ParsedSummary := ⟨"今日主题", "topic of the day", none, none, some examplePhrases⟩

/-- A concrete prior database state: an older summary row for `("h1", 10)`,
one leftover phrase of the prior generation for that date, and a phrase row
of another date that must survive regeneration. -/
def exampleSummaryDb : SummaryDb :=
  ⟨[⟨"h1", 10, "旧主题", "old topic", none, none, 1⟩],
   [⟨"h1", 10, 1, "old-a", "旧", none, none, none, false⟩,
    ⟨"h1", 11, 1, "keep", "留", none, none, none, true⟩]⟩

/-! ## Theorems -/

/-! ### Shared list lemmas -/

theorem find?_congr_mem {α} {p q : α → Bool} :
    ∀ (l : List α), (∀ x ∈ l, p x = q x) → l.find? p = l.find? q := by
  intro l h
  induction l with
  | nil => rfl
  | cons a l ih =>
    have ha : p a = q a := h a (by simp)
    by_cases hp : p a = true
    · rw [List.find?_cons_of_pos _ hp, List.find?_cons_of_pos _ (ha ▸ hp)]
    · rw [List.find?_cons_of_neg _ hp, List.find?_cons_of_neg _ (ha ▸ hp),
        ih (fun x hx => h x (by simp [hx]))]

theorem dropWhile_head_not {α} (p : α → Bool) :
    ∀ (l : List α) (c : α) (rest : List α), l.dropWhile p = c :: rest → p c = false := by
  intro l
  induction l with
  | nil => intro c rest h; simp [List.dropWhile] at h
  | cons a l ih =>
    intro c rest h
    by_cases ha : p a = true
    · rw [List.dropWhile_cons_of_pos ha] at h
      exact ih c rest h
    · rw [List.dropWhile_cons_of_neg ha] at h
      cases h
      simpa using ha

/-! ### The JSON-extraction refinement -/

theorem find?_balanced_eq_minBalanced :
    ∀ (cs : List Char) (st : ScanState),
    (List.range (cs.length + 1)).find? (fun k =>
      decide (k ≠ 0) && decide (((cs.take k).foldl scanStep st).braceCount = 0))
      = minBalanced cs st := by
  intro cs
  induction cs with
  | nil =>
    intro st
    simp [minBalanced, List.range_succ_eq_map]
  | cons c rest ih =>
    intro st
    rw [List.length_cons, List.range_succ_eq_map]
    rw [List.find?_cons_of_neg _ (by simp)]
    rw [List.find?_map]
    have hcomp : (fun k =>
        decide (k ≠ 0) && decide ((((c :: rest).take k).foldl scanStep st).braceCount = 0)) ∘ Nat.succ
        = fun k => decide (((rest.take k).foldl scanStep (scanStep st c)).braceCount = 0) := by
      funext k
      simp [Function.comp, List.take_succ_cons]
    rw [hcomp]
    by_cases hb : (scanStep st c).braceCount = 0
    · rw [List.range_succ_eq_map, List.find?_cons_of_pos _ (by simp [hb])]
      simp [minBalanced, hb]
    · have hcong : (List.range (rest.length + 1)).find?
          (fun k => decide (((rest.take k).foldl scanStep (scanStep st c)).braceCount = 0))
          = (List.range (rest.length + 1)).find?
          (fun k => decide (k ≠ 0) && decide (((rest.take k).foldl scanStep (scanStep st c)).braceCount = 0)) := by
        apply find?_congr_mem
        intro x _
        cases x with
        | zero => simp [hb]
        | succ n => simp
      rw [hcong, ih]
      simp only [minBalanced, hb, if_false]

theorem extractJSONLoop_eq_minBalanced :
    ∀ (cs : List Char) (bc : Int) (inS esc : Bool), 1 ≤ bc →
    extractJSONLoop cs bc inS esc
      = (minBalanced cs ⟨bc, inS, esc⟩).map ((cs).take ·) := by
  intro cs
  induction cs with
  | nil => intro bc inS esc _; rfl
  | cons c rest ih =>
    intro bc inS esc hbc
    have hcont : ∀ (bc' : Int) (inS' esc' : Bool),
        scanStep ⟨bc, inS, esc⟩ c = ⟨bc', inS', esc'⟩ → 1 ≤ bc' →
        (extractJSONLoop rest bc' inS' esc').map (c :: ·)
          = (minBalanced (c :: rest) ⟨bc, inS, esc⟩).map ((c :: rest).take ·) := by
      intro bc' inS' esc' hstep hpos
      have hne : ¬ (ScanState.mk bc' inS' esc').braceCount = 0 := by simp; omega
      rw [ih bc' inS' esc' hpos]
      simp only [minBalanced, hstep, hne, if_false]
      cases minBalanced rest ⟨bc', inS', esc'⟩ <;> simp [List.take_succ_cons]
    simp only [extractJSONLoop]
    by_cases h1 : esc = true
    · subst h1
      simp only [if_true]
      exact hcont bc inS false (by simp [scanStep]) hbc
    · rw [Bool.not_eq_true] at h1
      subst h1
      simp only [Bool.false_eq_true, if_false]
      by_cases h2 : c = '\\'
      · subst h2
        simp only [if_true]
        exact hcont bc inS true (by simp [scanStep]) hbc
      · simp only [h2, if_false]
        by_cases h3 : c = '"'
        · subst h3
          simp only [if_true]
          exact hcont bc (!inS) false (by simp [scanStep, h2]) hbc
        · simp only [h3, if_false]
          by_cases h4 : (!inS && c = '{') = true
          · simp only [h4, if_true]
            exact hcont (bc + 1) inS false (by
              simp only [scanStep]
              simp [h2, h3, h4]) (by omega)
          · simp only [h4, if_false]
            by_cases h5 : (!inS && c = '}') = true
            · simp only [h5, if_true]
              by_cases h6 : bc - 1 = 0
              · simp only [h6, if_true]
                have hmb : minBalanced (c :: rest) ⟨bc, inS, false⟩ = some 1 := by
                  have hsc : scanStep ⟨bc, inS, false⟩ c = ⟨bc - 1, inS, false⟩ := by
                    simp only [scanStep]
                    simp [h2, h3, h4, h5]
                  simp [minBalanced, hsc, h6]
                simp [hmb]
              · simp only [h6, if_false]
                exact hcont (bc - 1) inS false (by
                  simp only [scanStep]
                  simp [h2, h3, h4, h5]) (by omega)
            · simp only [h5, if_false]
              exact hcont bc inS false (by
                simp only [scanStep]
                simp [h2, h3, h4, h5]) hbc

theorem extractJSON_eq_firstBalancedJSON (s : String) :
    extractJSON s = firstBalancedJSON s := by
  unfold extractJSON firstBalancedJSON
  cases hdw : s.data.dropWhile (· ≠ '{') with
  | nil => simp [List.range_succ_eq_map]
  | cons c rest =>
    have hc : c = '{' := by
      have := dropWhile_head_not (fun x => decide (x ≠ '{')) s.data c rest hdw
      simpa using this
    subst hc
    simp only [find?_balanced_eq_minBalanced]
    simp only [extractJSONLoop]
    have hloop : extractJSONLoop rest 1 false false
        = (minBalanced rest ⟨1, false, false⟩).map (rest.take ·) :=
      extractJSONLoop_eq_minBalanced rest 1 false false (by omega)
    have hsc : scanStep ⟨0, false, false⟩ '{' = ⟨1, false, false⟩ := by
      simp [scanStep]
    simp only [minBalanced, hsc]
    simp only [if_neg (by norm_num : ¬ (ScanState.mk 1 false false).braceCount = 0)]
    have hone : (1 : Int) = 0 + 1 := by norm_num
    simp [hloop, Option.map_map, List.take_succ_cons, ← hone]
    have hfun : ((fun l => String.mk l) ∘ (fun x => '{' :: x) ∘ (fun x => List.take x rest))
        = ((fun k => String.mk (List.take k ('{' :: rest))) ∘ (fun x => x + 1)) := by
      funext k
      simp [List.take_succ_cons]
    rw [hfun]

/-! ### Persistence helper lemmas -/

theorem momOnly_foldl_endedAt :
    ∀ (es : List PersistEvent) (st : SessionPersistState),
    (∀ e ∈ es, ∃ ok, e = PersistEvent.momWrite ok) →
    (es.foldl stepPersist st).endedAt = st.endedAt := by
  intro es
  induction es with
  | nil => intro st _; rfl
  | cons e es ih =>
    intro st h
    obtain ⟨ok, rfl⟩ := h e (by simp)
    rw [List.foldl_cons, ih _ (fun x hx => h x (by simp [hx]))]
    cases ok <;> simp [stepPersist]

/-! ### Claim theorems -/

/-- C8: for every input text, the translation client's max-output-token
budget is nondecreasing in input length, at least 1024 and at most 2048,
and its request timeout is nondecreasing in input length, at least the
30-second base and at most the 60-second ceiling. -/
theorem C8_translate_budget_timeout_bounds (sourceIsChinese : Bool) (len len' : Nat)
    (hlen : len ≤ len') :
    translateMaxTokens sourceIsChinese len ≤ translateMaxTokens sourceIsChinese len' ∧
    1024 ≤ translateMaxTokens sourceIsChinese len ∧
    translateMaxTokens sourceIsChinese len ≤ 2048 ∧
    translateTimeoutMs len ≤ translateTimeoutMs len' ∧
    30000 ≤ translateTimeoutMs len ∧
    translateTimeoutMs len ≤ 60000 := by
  cases sourceIsChinese <;>
    simp only [translateMaxTokens, estimatedInputTokens, translateTimeoutMs,
      Bool.false_eq_true, if_true, if_false] <;>
    refine ⟨?_, ?_, ?_, ?_, ?_, ?_⟩ <;> omega

/-- Witness for C8 at `len = 10 ≤ 400000 = len'`. -/
theorem C8_translate_budget_timeout_bounds_witness :
    10 ≤ 400000 ∧
    (translateMaxTokens true 10 ≤ translateMaxTokens true 400000 ∧
     1024 ≤ translateMaxTokens true 10 ∧
     translateMaxTokens true 10 ≤ 2048 ∧
     translateTimeoutMs 10 ≤ translateTimeoutMs 400000 ∧
     30000 ≤ translateTimeoutMs 10 ∧
     translateTimeoutMs 10 ≤ 60000) :=
  ⟨by decide, C8_translate_budget_timeout_bounds true 10 400000 (by decide)⟩

/-- C1: when an existing session's submitted audio transcribes to empty or
whitespace-only text, both the reply-turn and the mom-turn handlers answer
with the terminal empty-speech 400 response and issue no turn insert and no
session update. -/
theorem C1_empty_speech_no_turn_row (s : SessionRow) (partnerUserId : Option String)
    (transcription : TranscriptionResult) (translation : TranslationResult) (now : Int)
    (hEmpty : jsTrim (transcription.text.getD "") = "") :
    replyTurnPost (some s) partnerUserId true transcription translation now
      = ⟨.emptySpeech, [], []⟩ ∧
    momTurnPost (some s) true transcription translation now = ⟨.emptySpeech, [], []⟩ ∧
    TurnApiResponse.emptySpeech.status = 400 ∧
    TurnApiResponse.emptySpeech.errorMessage
      = "No speech detected in audio. Please try speaking again." := by
  refine ⟨?_, ?_, rfl, rfl⟩ <;> simp [replyTurnPost, momTurnPost, hEmpty]

/-- Witness for C1: a whitespace-only transcript on a concrete session. -/
theorem C1_empty_speech_no_turn_row_witness :
    ((jsTrim ((⟨"r7", some "  \t "⟩ : TranscriptionResult).text.getD "") = "") ∧
     (replyTurnPost (some ⟨"s1", "h1", "u0"⟩) (some "u1") true ⟨"r7", some "  \t "⟩
        ⟨"", "t9"⟩ 100 = ⟨.emptySpeech, [], []⟩ ∧
      momTurnPost (some ⟨"s1", "h1", "u0"⟩) true ⟨"r7", some "  \t "⟩
        ⟨"", "t9"⟩ 100 = ⟨.emptySpeech, [], []⟩ ∧
      TurnApiResponse.emptySpeech.status = 400 ∧
      TurnApiResponse.emptySpeech.errorMessage
        = "No speech detected in audio. Please try speaking again.")) :=
  ⟨by decide,
   C1_empty_speech_no_turn_row ⟨"s1", "h1", "u0"⟩ (some "u1") ⟨"r7", some "  \t "⟩
     ⟨"", "t9"⟩ 100 (by decide)⟩

/-- C2 counterexample: the reply handler issues the `ended_at` update
concurrently with (and not conditioned on) the turn-1 insert, so in a run
where the turn-1 insert fails but the update succeeds, `ended_at` is
non-null while turn 1 was never persisted — refuting "`ended_at` is null
until both turns are successfully persisted". -/
theorem C2_ended_at_counterexample :
    (runPersist 0 [.momWrite true, .replyWrite false true 5]).endedAt = some 5 ∧
    (runPersist 0 [.momWrite true, .replyWrite false true 5]).turn1Persisted = false := by
  refine ⟨rfl, rfl⟩

/-- C2 (amended): `ended_at` is null while only first-turn write batches have
run; on the happy path where the reply batch runs and every issued write
succeeds, `ended_at` is non-null, at least `started_at`, and both turns are
persisted.  (Per the counterexample it can also become non-null when the
turn-1 insert fails.) -/
theorem C2_ended_at_lifecycle (t0 t1 : Int) (es : List PersistEvent)
    (hmom : ∀ e ∈ es, ∃ ok, e = PersistEvent.momWrite ok) (ht : t0 ≤ t1) :
    (runPersist t0 es).endedAt = none ∧
    (runPersist t0 [.momWrite true, .replyWrite true true t1]).endedAt = some t1 ∧
    (runPersist t0 [.momWrite true, .replyWrite true true t1]).turn0Persisted = true ∧
    (runPersist t0 [.momWrite true, .replyWrite true true t1]).turn1Persisted = true ∧
    (runPersist t0 [.momWrite true, .replyWrite true true t1]).startedAt ≤ t1 := by
  refine ⟨momOnly_foldl_endedAt es _ hmom, rfl, rfl, rfl, ?_⟩
  simpa [runPersist, stepPersist] using ht

/-- Witness for C2 with a successful first-turn write and `t0 = 2 ≤ 5 = t1`. -/
theorem C2_ended_at_lifecycle_witness :
    ((∀ e ∈ [PersistEvent.momWrite true], ∃ ok, e = PersistEvent.momWrite ok) ∧
     (2 : Int) ≤ 5) ∧
    ((runPersist 2 [PersistEvent.momWrite true]).endedAt = none ∧
     (runPersist 2 [.momWrite true, .replyWrite true true 5]).endedAt = some 5 ∧
     (runPersist 2 [.momWrite true, .replyWrite true true 5]).turn0Persisted = true ∧
     (runPersist 2 [.momWrite true, .replyWrite true true 5]).turn1Persisted = true ∧
     (runPersist 2 [.momWrite true, .replyWrite true true 5]).startedAt ≤ 5) :=
  ⟨⟨by intro e he; refine ⟨true, ?_⟩; simpa using he, by decide⟩,
   C2_ended_at_lifecycle 2 5 [PersistEvent.momWrite true]
     (by intro e he; refine ⟨true, ?_⟩; simpa using he) (by decide)⟩

/-- C5: a turn of household `h1` ending at 2024-12-02T04:30:00Z is selected
by the summary turns query for the New York local date 2024-12-01 and not
for 2024-12-02. -/
theorem C5_timezone_day_assignment :
    summaryTurnsForDate
        [⟨"s1", "h1", none, "partner", 1, minutesOfUTC 2024 12 2 4 30, "en-US", "zh-CN",
          "hello", "nihao", "a1", "t1"⟩]
        "h1" newYorkWinterOffsetMinutes (daysFromCivil 2024 12 1)
      = [⟨"s1", "h1", none, "partner", 1, minutesOfUTC 2024 12 2 4 30, "en-US", "zh-CN",
          "hello", "nihao", "a1", "t1"⟩] ∧
    summaryTurnsForDate
        [⟨"s1", "h1", none, "partner", 1, minutesOfUTC 2024 12 2 4 30, "en-US", "zh-CN",
          "hello", "nihao", "a1", "t1"⟩]
        "h1" newYorkWinterOffsetMinutes (daysFromCivil 2024 12 2) = [] := by
  refine ⟨by decide, by decide⟩

/-- C6: when the timezone-converted turns query returns no turns for the
target date, the summary endpoint answers with the no-conversations error
and leaves both summary tables exactly as they were. -/
theorem C6_empty_date_no_write (hid : String) (sd : Option Int) (today : Int)
    (hh : HouseholdRow) (allTurns : List TurnRow) (llmRaw : Option ParsedSummary)
    (txFailAt : Option Nat) (now : Int) (db : SummaryDb)
    (hEmpty : summaryTurnsForDate allTurns hid hh.timezoneOffsetMinutes (sd.getD today) = []) :
    generatePost (some hid) sd today (some hh) allTurns llmRaw txFailAt now db
      = ⟨.noConversationsForDate, db⟩ := by
  simp [generatePost, hEmpty]

/-- Witness for C6: a concrete household and date with no matching turns and
a non-empty pre-existing database. -/
theorem C6_empty_date_no_write_witness :
    (summaryTurnsForDate
        [⟨"s1", "h2", none, "partner", 1, 0, "en-US", "zh-CN", "x", "y", "a", "t"⟩]
        "h1" (⟨"h1", -300⟩ : HouseholdRow).timezoneOffsetMinutes
        ((some (20059 : Int)).getD 0) = []) ∧
    generatePost (some "h1") (some 20059) 0 (some ⟨"h1", -300⟩)
        [⟨"s1", "h2", none, "partner", 1, 0, "en-US", "zh-CN", "x", "y", "a", "t"⟩]
        none none 7
        ⟨[⟨"h1", 20000, "z", "e", none, none, 1⟩], [⟨"h1", 20000, 1, "pe", "pz", none, none, none, false⟩]⟩
      = ⟨.noConversationsForDate,
         ⟨[⟨"h1", 20000, "z", "e", none, none, 1⟩], [⟨"h1", 20000, 1, "pe", "pz", none, none, none, false⟩]⟩⟩ :=
  ⟨by decide,
   C6_empty_date_no_write "h1" (some 20059) 0 ⟨"h1", -300⟩
     [⟨"s1", "h2", none, "partner", 1, 0, "en-US", "zh-CN", "x", "y", "a", "t"⟩]
     none none 7
     ⟨[⟨"h1", 20000, "z", "e", none, none, 1⟩], [⟨"h1", 20000, 1, "pe", "pz", none, none, none, false⟩]⟩
     (by decide)⟩

/-- C4: daily-summary generation succeeds only when the parsed response
carries exactly five phrases; a well-formed summary whose phrases array has
any other length is rejected with the five-phrases contract error. -/
theorem C4_exactly_five_phrases (s : ParsedSummary) (ph : List SummaryPhrase)
    (hph : s.phrases = some ph) :
    ((validateSummary s).isOk → ph.length = 5) ∧
    (s.topic_summary_zh ≠ "" → s.topic_summary_en ≠ "" → ph.length ≠ 5 →
      validateSummary s = .error "Summary must contain exactly 5 phrases") := by
  have hgetD : s.phrases.getD [] = ph := by rw [hph]; rfl
  constructor
  · intro hok
    by_cases h1 : (s.topic_summary_zh = "" || s.topic_summary_en = "" || s.phrases.isNone) = true
    · simp [validateSummary, h1] at hok
      simp [Except.isOk, Except.toBool] at hok
    · by_cases h2 : ph.length = 5
      · exact h2
      · have herr : validateSummary s = .error "Summary must contain exactly 5 phrases" := by
          simp only [validateSummary, h1, Bool.false_eq_true, if_false, hgetD]
          simp [h2]
        rw [herr] at hok
        simp [Except.isOk, Except.toBool] at hok
  · intro hzh hen hlen
    have h1 : (s.topic_summary_zh = "" || s.topic_summary_en = "" || s.phrases.isNone) = false := by
      simp [hzh, hen, hph]
    simp only [validateSummary, h1, Bool.false_eq_true, if_false, hgetD]
    simp [hlen]

/-- Witness for C4: a four-phrase summary is rejected with the five-phrases
error. -/
theorem C4_exactly_five_phrases_witness :
    ((⟨"总结", "summary", none, none,
        some [⟨"a", "甲", none, none, none⟩, ⟨"b", "乙", none, none, none⟩,
              ⟨"c", "丙", none, none, none⟩, ⟨"d", "丁", none, none, none⟩]⟩ :
        ParsedSummary).phrases
      = some [⟨"a", "甲", none, none, none⟩, ⟨"b", "乙", none, none, none⟩,
              ⟨"c", "丙", none, none, none⟩, ⟨"d", "丁", none, none, none⟩]) ∧
    (((validateSummary ⟨"总结", "summary", none, none,
        some [⟨"a", "甲", none, none, none⟩, ⟨"b", "乙", none, none, none⟩,
              ⟨"c", "丙", none, none, none⟩, ⟨"d", "丁", none, none, none⟩]⟩).isOk →
        ([⟨"a", "甲", none, none, none⟩, ⟨"b", "乙", none, none, none⟩,
          ⟨"c", "丙", none, none, none⟩, ⟨"d", "丁", none, none, none⟩] :
          List SummaryPhrase).length = 5) ∧
     ((⟨"总结", "summary", none, none,
        some [⟨"a", "甲", none, none, none⟩, ⟨"b", "乙", none, none, none⟩,
              ⟨"c", "丙", none, none, none⟩, ⟨"d", "丁", none, none, none⟩]⟩ :
        ParsedSummary).topic_summary_zh ≠ "" →
      (⟨"总结", "summary", none, none,
        some [⟨"a", "甲", none, none, none⟩, ⟨"b", "乙", none, none, none⟩,
              ⟨"c", "丙", none, none, none⟩, ⟨"d", "丁", none, none, none⟩]⟩ :
        ParsedSummary).topic_summary_en ≠ "" →
      ([⟨"a", "甲", none, none, none⟩, ⟨"b", "乙", none, none, none⟩,
        ⟨"c", "丙", none, none, none⟩, ⟨"d", "丁", none, none, none⟩] :
        List SummaryPhrase).length ≠ 5 →
      validateSummary ⟨"总结", "summary", none, none,
        some [⟨"a", "甲", none, none, none⟩, ⟨"b", "乙", none, none, none⟩,
              ⟨"c", "丙", none, none, none⟩, ⟨"d", "丁", none, none, none⟩]⟩
        = .error "Summary must contain exactly 5 phrases")) :=
  ⟨rfl, C4_exactly_five_phrases _ _ rfl⟩

/-- C7 counterexample: on a model output that wraps its JSON in prose with a
trailing brace pair, the Tagging Service's greedy regex span differs from
the first balanced JSON object, so the tagging extraction is not the
string/escape-aware brace matching the claim describes. -/
theorem C7_tagging_extraction_counterexample :
    tagExtractJSON tagProseText ≠ firstBalancedJSON tagProseText ∧
    firstBalancedJSON tagProseText = some "\x7b\"situation_tag\": \"kitchen\"\x7d" ∧
    tagExtractJSON tagProseText
      = some "\x7b\"situation_tag\": \"kitchen\"\x7d Note: \x7bbraces\x7d" := by
  refine ⟨by decide, by decide, by decide⟩

/-- C7 (amended): the string/escape-aware first-balanced-object extraction
is implemented by the vocabulary endpoint's `extractJSON`, which agrees with
the reference first-balanced-JSON specification on every input, and in
particular is not broken by brace characters inside string content; the
Tagging Service instead takes the greedy span from the first `{` to the last
`}` (see the counterexample). -/
theorem C7_extractJSON_is_first_balanced :
    (∀ s : String, extractJSON s = firstBalancedJSON s) ∧
    extractJSON braceInStringText = some "\x7b\"a\": \"b\x7dc\"\x7d" ∧
    extractJSON tagProseText = some "\x7b\"situation_tag\": \"kitchen\"\x7d" :=
  ⟨extractJSON_eq_firstBalancedJSON, by decide, by decide⟩

/-- Length of the vocabulary pipeline applied to a list: filter, take `n`,
filter, map, filter, map never exceeds `n` items. -/
theorem vocab_pipeline_length {α β γ : Type} (l : List α) (n : Nat) (p : α → Bool)
    (h : α → β) (q : β → Bool) (g : β → γ) :
    (((((l.take n).filter p).map h).filter q).map g).length ≤ n := by
  calc (((((l.take n).filter p).map h).filter q).map g).length
      = ((((l.take n).filter p).map h).filter q).length := by rw [List.length_map]
    _ ≤ (((l.take n).filter p).map h).length := List.length_filter_le _ _
    _ = ((l.take n).filter p).length := by rw [List.length_map]
    _ ≤ (l.take n).length := List.length_filter_le _ _
    _ ≤ n := by simp [List.length_take]

/-- Any word surviving the vocabulary pipeline originates from an item that
passed the A1 filter, so its lowercased trimmed form is not excluded. -/
theorem vocab_pipeline_not_excluded (l : List VocabWordItem) (n : Nat)
    (t : VocabWordItem → String) (q : VocabWordItem × String → Bool)
    (y : TranslatedWord)
    (hy : y ∈ (((((l.filter keepWordItem).take n).filter
          (fun i => wordNonempty i.word)).map (fun i => (i, t i))).filter q).map
        (fun x => (⟨x.1.word.getD "", x.2, x.1.count⟩ : TranslatedWord))) :
    a1ExclusionList.contains (jsTrim (jsToLower y.word)) = false := by
  obtain ⟨x, hx, rfl⟩ := List.mem_map.mp hy
  have hx2 := List.mem_of_mem_filter hx
  obtain ⟨i, hi, rfl⟩ := List.mem_map.mp hx2
  have hi2 := List.mem_of_mem_filter hi
  have hi3 : i ∈ (l.filter keepWordItem) := List.mem_of_mem_take hi2
  have hkeep : keepWordItem i = true := (List.mem_filter.mp hi3).2
  unfold keepWordItem at hkeep
  cases hw : i.word with
  | none => rw [hw] at hkeep; simp at hkeep
  | some w =>
    rw [hw] at hkeep
    simp only [Bool.and_eq_true, Bool.not_eq_true'] at hkeep
    simpa [hw] using hkeep.2

set_option maxRecDepth 8000 in
/-- C9: on every parsed analysis and every translation oracle, the
vocabulary extractor returns at most 5 nouns, 5 verbs and 3 phrases, no
returned noun or verb is on the elementary exclusion set when lowercased and
trimmed, and in particular "baby" is on the exclusion set while "flight" and
"miss" are not. -/
theorem C9_vocab_caps_and_exclusion (analysis : VocabAnalysis)
    (tr : String → Option String) :
    (analyzeVocabularyPost analysis tr).nouns.length ≤ 5 ∧
    (analyzeVocabularyPost analysis tr).verbs.length ≤ 5 ∧
    (analyzeVocabularyPost analysis tr).phrases.length ≤ 3 ∧
    (∀ y ∈ (analyzeVocabularyPost analysis tr).nouns,
      a1ExclusionList.contains (jsTrim (jsToLower y.word)) = false) ∧
    (∀ y ∈ (analyzeVocabularyPost analysis tr).verbs,
      a1ExclusionList.contains (jsTrim (jsToLower y.word)) = false) ∧
    a1ExclusionList.contains "baby" = true ∧
    a1ExclusionList.contains "flight" = false ∧
    a1ExclusionList.contains "miss" = false := by
  refine ⟨?_, ?_, ?_, ?_, ?_, by decide, by decide, by decide⟩
  · exact vocab_pipeline_length _ 5 _ _ _ _
  · exact vocab_pipeline_length _ 5 _ _ _ _
  · exact vocab_pipeline_length _ 3 _ _ _ _
  · intro y hy
    exact vocab_pipeline_not_excluded analysis.nouns 5 _ _ y hy
  · intro y hy
    exact vocab_pipeline_not_excluded analysis.verbs 5 _ _ y hy

/-- C10: querying the vocabulary endpoint for a date with no matching turns
succeeds with `turnCount 0`, empty noun/verb/phrase lists, and no analysis
(hence no LLM) call. -/
theorem C10_vocab_empty_date_success (hh : HouseholdRow) (dateStr : String)
    (targetDate : Int) (allTurns : List TurnRow) (analysis : VocabAnalysis)
    (tr : String → Option String)
    (hfmt : validDateFormat dateStr = true)
    (hempty : vocabTurnTexts allTurns hh.id hh.timezoneOffsetMinutes targetDate = []) :
    vocabularyGet (some hh) dateStr targetDate allTurns analysis tr
      = ⟨.ok dateStr 0 [] [] [] hh.timezoneOffsetMinutes, false⟩ := by
  simp [vocabularyGet, hfmt, hempty]

set_option maxRecDepth 8000 in
/-- Witness for C10: a household whose only stored turn belongs to another
household. -/
theorem C10_vocab_empty_date_success_witness :
    (validDateFormat "2024-12-01" = true ∧
     vocabTurnTexts
        [⟨"s1", "h2", none, "mom", 0, 28884990, "zh-CN", "en-US", "你好", "hello", "a", "t"⟩]
        (⟨"h1", -300⟩ : HouseholdRow).id
        (⟨"h1", -300⟩ : HouseholdRow).timezoneOffsetMinutes 20058 = []) ∧
    vocabularyGet (some ⟨"h1", -300⟩) "2024-12-01" 20058
        [⟨"s1", "h2", none, "mom", 0, 28884990, "zh-CN", "en-US", "你好", "hello", "a", "t"⟩]
        ⟨[], [], []⟩ (fun _ => none)
      = ⟨.ok "2024-12-01" 0 [] [] [] (-300), false⟩ :=
  ⟨⟨by decide, by decide⟩,
   C10_vocab_empty_date_success ⟨"h1", -300⟩ "2024-12-01" 20058
     [⟨"s1", "h2", none, "mom", 0, 28884990, "zh-CN", "en-US", "你好", "hello", "a", "t"⟩]
     ⟨[], [], []⟩ (fun _ => none) (by decide) (by decide)⟩

/-! ### Summary transaction lemmas -/

theorem upsertKeyPhrase_of_no_key (row : KeyPhraseRow) (l : List KeyPhraseRow)
    (hno : ∀ r ∈ l, ¬(r.householdId = row.householdId ∧ r.summaryDate = row.summaryDate ∧
      r.phraseEn = row.phraseEn)) :
    upsertKeyPhrase row l = l ++ [row] := by
  unfold upsertKeyPhrase
  rw [if_neg]
  intro hany
  obtain ⟨r, hr, hk⟩ := List.any_eq_true.mp hany
  simp only [Bool.and_eq_true, decide_eq_true_eq] at hk
  exact hno r hr ⟨hk.1.1, hk.1.2, hk.2⟩

theorem foldl_upsertKeyPhrase_append (h : String) (d : Int) :
    ∀ (xs : List (Nat × SummaryPhrase)) (l : List KeyPhraseRow),
    (∀ r ∈ l, ∀ ip ∈ xs, ¬(r.householdId = h ∧ r.summaryDate = d ∧
      r.phraseEn = ip.2.phrase_en)) →
    (xs.map (fun ip => ip.2.phrase_en)).Nodup →
    xs.foldl (fun acc ip => upsertKeyPhrase (phraseRowOfInput h d (ip.1 + 1) ip.2) acc) l
      = l ++ xs.map (fun ip => phraseRowOfInput h d (ip.1 + 1) ip.2) := by
  intro xs
  induction xs with
  | nil => intro l _ _; simp
  | cons x xs ih =>
    intro l hl hnd
    rw [List.foldl_cons]
    rw [upsertKeyPhrase_of_no_key _ _ (fun r hr hk => hl r hr x (by simp) hk)]
    rw [List.map_cons, List.nodup_cons] at hnd
    rw [ih (l ++ [phraseRowOfInput h d (x.1 + 1) x.2]) ?_ hnd.2]
    · simp
    · intro r hr ip hip hk
      rcases List.mem_append.mp hr with hrl | hrx
      · exact hl r hrl ip (by simp [hip]) hk
      · have hre : r = phraseRowOfInput h d (x.1 + 1) x.2 := by simpa using hrx
        subst hre
        have hpe : x.2.phrase_en = ip.2.phrase_en := hk.2.2
        exact hnd.1 (by rw [hpe]; exact List.mem_map.mpr ⟨ip, hip, rfl⟩)

theorem foldl_phraseStmts (h : String) (d : Int) :
    ∀ (xs : List (Nat × SummaryPhrase)) (db : SummaryDb),
    ((xs.map (fun ip => (fun db : SummaryDb =>
        { db with phrases := upsertKeyPhrase (phraseRowOfInput h d (ip.1 + 1) ip.2) db.phrases }))).foldl
      (fun s f => f s) db)
      = { db with phrases :=
          (xs.foldl (fun acc ip => upsertKeyPhrase (phraseRowOfInput h d (ip.1 + 1) ip.2) acc)
            db.phrases) } := by
  intro xs
  induction xs with
  | nil => intro db; rfl
  | cons x xs ih =>
    intro db
    rw [List.map_cons, List.foldl_cons, ih, List.foldl_cons]

theorem upsertDailySummary_mem_self (row : DailySummaryRow) (l : List DailySummaryRow) :
    row ∈ upsertDailySummary row l := by
  unfold upsertDailySummary
  by_cases hany : (l.any (fun r => r.householdId = row.householdId &&
      r.summaryDate = row.summaryDate)) = true
  · rw [if_pos hany]
    obtain ⟨r, hr, hk⟩ := List.any_eq_true.mp hany
    exact List.mem_map.mpr ⟨r, hr, by simp [hk]⟩
  · rw [if_neg hany]
    simp

theorem upsertDailySummary_key_forces (row : DailySummaryRow) (l : List DailySummaryRow)
    (r : DailySummaryRow) (hr : r ∈ upsertDailySummary row l)
    (hh : r.householdId = row.householdId) (hd : r.summaryDate = row.summaryDate) :
    r = row := by
  unfold upsertDailySummary at hr
  by_cases hany : (l.any (fun r => r.householdId = row.householdId &&
      r.summaryDate = row.summaryDate)) = true
  · rw [if_pos hany] at hr
    obtain ⟨r0, _, hr0⟩ := List.mem_map.mp hr
    by_cases hk : (r0.householdId = row.householdId && r0.summaryDate = row.summaryDate) = true
    · rw [if_pos hk] at hr0; exact hr0.symm
    · rw [if_neg hk] at hr0
      subst hr0
      exact absurd (by simp [hh, hd]) hk
  · rw [if_neg hany] at hr
    rcases List.mem_append.mp hr with hrl | hrx
    · rw [Bool.not_eq_true, List.any_eq_false] at hany
      exact absurd (by simp [hh, hd]) (hany r hrl)
    · simpa using hrx

theorem runSummaryTx_success (h : String) (d : Int) (s : ParsedSummary)
    (ph : List SummaryPhrase) (now : Int) (db : SummaryDb)
    (hph : s.phrases = some ph)
    (hnodup : (ph.map (fun p => p.phrase_en)).Nodup) :
    runTransaction (summaryTxStatements h d s now) none db
      = { summaries := upsertDailySummary (summaryRowOfResult h d s now) db.summaries,
          phrases := deleteKeyPhrases h d db.phrases
            ++ ph.enum.map (fun ip => phraseRowOfInput h d (ip.1 + 1) ip.2) } := by
  have hnd : (ph.enum.map (fun ip => ip.2.phrase_en)).Nodup := by
    have hmm : ph.enum.map (fun ip => ip.2.phrase_en) = ph.map (fun p => p.phrase_en) := by
      rw [show (fun ip : Nat × SummaryPhrase => ip.2.phrase_en)
          = ((fun p : SummaryPhrase => p.phrase_en) ∘ Prod.snd) from rfl]
      rw [← List.map_map, List.enum_map_snd]
    rw [hmm]
    exact hnodup
  have hno : ∀ r ∈ deleteKeyPhrases h d db.phrases, ∀ ip ∈ ph.enum,
      ¬(r.householdId = h ∧ r.summaryDate = d ∧ r.phraseEn = ip.2.phrase_en) := by
    intro r hr ip _ hk
    unfold deleteKeyPhrases at hr
    have h2 := (List.mem_filter.mp hr).2
    simp [hk.1, hk.2.1] at h2
  unfold runTransaction summaryTxStatements
  rw [hph]
  simp only [Option.getD_some, List.foldl_cons]
  rw [foldl_phraseStmts]
  rw [foldl_upsertKeyPhrase_append h d ph.enum (deleteKeyPhrases h d db.phrases) hno hnd]

/-- C3: regenerating the summary for a `(household, date)` that already has
one (with the contract's distinct phrases) overwrites the summary row in
place — after the write every row with that key equals the new row — and
replaces the date's phrase set with exactly the rows of the new generation,
in rank order, leaving phrase rows of every other key untouched; and any
failure inside the transaction rolls the whole write back, leaving the
database exactly as before. -/
theorem C3_regeneration_replaces_phrases (h : String) (d : Int) (s : ParsedSummary)
    (ph : List SummaryPhrase) (now : Int) (db : SummaryDb)
    (hph : s.phrases = some ph)
    (hnodup : (ph.map (fun p => p.phrase_en)).Nodup) :
    ((runTransaction (summaryTxStatements h d s now) none db).phrases.filter
        (fun r => r.householdId = h && r.summaryDate = d)
      = ph.enum.map (fun ip => phraseRowOfInput h d (ip.1 + 1) ip.2)) ∧
    ((runTransaction (summaryTxStatements h d s now) none db).phrases.filter
        (fun r => !(r.householdId = h && r.summaryDate = d))
      = db.phrases.filter (fun r => !(r.householdId = h && r.summaryDate = d))) ∧
    (summaryRowOfResult h d s now ∈
      (runTransaction (summaryTxStatements h d s now) none db).summaries) ∧
    (∀ r ∈ (runTransaction (summaryTxStatements h d s now) none db).summaries,
      r.householdId = h → r.summaryDate = d → r = summaryRowOfResult h d s now) ∧
    (∀ k, k < (summaryTxStatements h d s now).length →
      runTransaction (summaryTxStatements h d s now) (some k) db = db) := by
  rw [runSummaryTx_success h d s ph now db hph hnodup]
  refine ⟨?_, ?_, ?_, ?_, ?_⟩
  · rw [List.filter_append]
    have h1 : (deleteKeyPhrases h d db.phrases).filter
        (fun r => r.householdId = h && r.summaryDate = d) = [] := by
      rw [List.filter_eq_nil_iff]
      intro r hr hc
      unfold deleteKeyPhrases at hr
      have h2 := (List.mem_filter.mp hr).2
      rw [hc] at h2
      simp at h2
    have h2 : (ph.enum.map (fun ip => phraseRowOfInput h d (ip.1 + 1) ip.2)).filter
        (fun r => r.householdId = h && r.summaryDate = d)
        = ph.enum.map (fun ip => phraseRowOfInput h d (ip.1 + 1) ip.2) := by
      rw [List.filter_eq_self]
      intro r hr
      obtain ⟨ip, _, rfl⟩ := List.mem_map.mp hr
      simp [phraseRowOfInput]
    rw [h1, h2, List.nil_append]
  · rw [List.filter_append]
    have h1 : (deleteKeyPhrases h d db.phrases).filter
        (fun r => !(r.householdId = h && r.summaryDate = d))
        = db.phrases.filter (fun r => !(r.householdId = h && r.summaryDate = d)) := by
      unfold deleteKeyPhrases
      rw [List.filter_filter]
      apply List.filter_congr
      intro r _
      simp
    have h2 : (ph.enum.map (fun ip => phraseRowOfInput h d (ip.1 + 1) ip.2)).filter
        (fun r => !(r.householdId = h && r.summaryDate = d)) = [] := by
      rw [List.filter_eq_nil_iff]
      intro r hr hc
      obtain ⟨ip, _, rfl⟩ := List.mem_map.mp hr
      simp [phraseRowOfInput] at hc
    rw [h1, h2, List.append_nil]
  · exact upsertDailySummary_mem_self _ _
  · intro r hr hrh hrd
    exact upsertDailySummary_key_forces _ _ r hr hrh hrd
  · intro k hk
    simp [runTransaction, hk]

set_option maxRecDepth 8000 in
/-- Witness for C3: regenerating `("h1", 10)` over `exampleSummaryDb`
replaces its phrase set, keeps the other date's row, and a failure at the
delete statement rolls everything back. -/
theorem C3_regeneration_replaces_phrases_witness :
    (exampleSummary.phrases = some examplePhrases ∧
     (examplePhrases.map (fun p => p.phrase_en)).Nodup ∧
     1 < (summaryTxStatements "h1" 10 exampleSummary 2).length) ∧
    ((runTransaction (summaryTxStatements "h1" 10 exampleSummary 2) none exampleSummaryDb).phrases.filter
        (fun r => r.householdId = "h1" && r.summaryDate = 10)
      = examplePhrases.enum.map (fun ip => phraseRowOfInput "h1" 10 (ip.1 + 1) ip.2)) ∧
    ((runTransaction (summaryTxStatements "h1" 10 exampleSummary 2) none exampleSummaryDb).phrases.filter
        (fun r => !(r.householdId = "h1" && r.summaryDate = 10))
      = exampleSummaryDb.phrases.filter (fun r => !(r.householdId = "h1" && r.summaryDate = 10))) ∧
    runTransaction (summaryTxStatements "h1" 10 exampleSummary 2) (some 1) exampleSummaryDb
      = exampleSummaryDb :=
  ⟨⟨rfl, by decide, by decide⟩,
   (C3_regeneration_replaces_phrases "h1" 10 exampleSummary examplePhrases 2 exampleSummaryDb
      rfl (by decide)).1,
   (C3_regeneration_replaces_phrases "h1" 10 exampleSummary examplePhrases 2 exampleSummaryDb
      rfl (by decide)).2.1,
   (C3_regeneration_replaces_phrases "h1" 10 exampleSummary examplePhrases 2 exampleSummaryDb
      rfl (by decide)).2.2.2.2 1 (by decide)⟩

set_option maxRecDepth 8000 in
/-- Witness for C9 at a concrete analysis (the spec's two-line transcript
scenario: "flight", "baby", "miss" among the extracted words) and a concrete
translation oracle. -/
theorem C9_vocab_caps_and_exclusion_witness :
    (analyzeVocabularyPost
        ⟨[⟨some "flight", 2⟩, ⟨some "baby", 3⟩, ⟨some "night", 1⟩],
         [⟨some "miss", 2⟩, ⟨some "cry", 2⟩],
         [⟨some "all night", 1⟩]⟩ (fun _ => some "译")).nouns.length ≤ 5 ∧
    (analyzeVocabularyPost
        ⟨[⟨some "flight", 2⟩, ⟨some "baby", 3⟩, ⟨some "night", 1⟩],
         [⟨some "miss", 2⟩, ⟨some "cry", 2⟩],
         [⟨some "all night", 1⟩]⟩ (fun _ => some "译")).verbs.length ≤ 5 ∧
    (analyzeVocabularyPost
        ⟨[⟨some "flight", 2⟩, ⟨some "baby", 3⟩, ⟨some "night", 1⟩],
         [⟨some "miss", 2⟩, ⟨some "cry", 2⟩],
         [⟨some "all night", 1⟩]⟩ (fun _ => some "译")).phrases.length ≤ 3 ∧
    a1ExclusionList.contains "baby" = true ∧
    a1ExclusionList.contains "flight" = false ∧
    a1ExclusionList.contains "miss" = false :=
  ⟨(C9_vocab_caps_and_exclusion
      ⟨[⟨some "flight", 2⟩, ⟨some "baby", 3⟩, ⟨some "night", 1⟩],
       [⟨some "miss", 2⟩, ⟨some "cry", 2⟩],
       [⟨some "all night", 1⟩]⟩ (fun _ => some "译")).1,
   (C9_vocab_caps_and_exclusion
      ⟨[⟨some "flight", 2⟩, ⟨some "baby", 3⟩, ⟨some "night", 1⟩],
       [⟨some "miss", 2⟩, ⟨some "cry", 2⟩],
       [⟨some "all night", 1⟩]⟩ (fun _ => some "译")).2.1,
   (C9_vocab_caps_and_exclusion
      ⟨[⟨some "flight", 2⟩, ⟨some "baby", 3⟩, ⟨some "night", 1⟩],
       [⟨some "miss", 2⟩, ⟨some "cry", 2⟩],
       [⟨some "all night", 1⟩]⟩ (fun _ => some "译")).2.2.1,
   (C9_vocab_caps_and_exclusion
      ⟨[⟨some "flight", 2⟩, ⟨some "baby", 3⟩, ⟨some "night", 1⟩],
       [⟨some "miss", 2⟩, ⟨some "cry", 2⟩],
       [⟨some "all night", 1⟩]⟩ (fun _ => some "译")).2.2.2.2.2.1,
   (C9_vocab_caps_and_exclusion
      ⟨[⟨some "flight", 2⟩, ⟨some "baby", 3⟩, ⟨some "night", 1⟩],
       [⟨some "miss", 2⟩, ⟨some "cry", 2⟩],
       [⟨some "all night", 1⟩]⟩ (fun _ => some "译")).2.2.2.2.2.2.1,
   (C9_vocab_caps_and_exclusion
      ⟨[⟨some "flight", 2⟩, ⟨some "baby", 3⟩, ⟨some "night", 1⟩],
       [⟨some "miss", 2⟩, ⟨some "cry", 2⟩],
       [⟨some "all night", 1⟩]⟩ (fun _ => some "译")).2.2.2.2.2.2.2⟩
